import Mathlib

/- Verification of the NavigatorAI travel-planner orchestration core against its
natural-language specification.  The Python sources are shallowly embedded:
pure functions become Lean functions, dictionaries become association lists,
Python exceptions become `Except`/`Option` results, machine floats that only
pass through unchanged are modelled as rationals, and calls into external
providers (currency converter library, Amadeus/RapidAPI adapters, `random`)
are abstracted as explicit oracle parameters. -/

set_option maxRecDepth 4000

/-! Python string primitives (ASCII model).  `str.lower`/`str.upper` are
modelled on the ASCII range, which covers every string the embedded tables and
claims use. -/

def pyLower (s : String) : String := ⟨s.data.map Char.toLower⟩

def pyUpper (s : String) : String := ⟨s.data.map Char.toUpper⟩

/-- Python whitespace characters recognised by `str.strip()` (ASCII model). -/
def isPySpace (c : Char) : Bool :=
  c == ' ' || c == '\t' || c == '\n' || c == '\r' || c == '\x0b' || c == '\x0c'

/-- Python `str.strip()`: drop leading and trailing whitespace. -/
def pyStrip (s : String) : String :=
  ⟨((s.data.dropWhile isPySpace).reverse.dropWhile isPySpace).reverse⟩

/-- Python slicing `s[:n]` on a string. -/
def pyTakeStr (n : Nat) (s : String) : String := ⟨s.data.take n⟩

/-- Whether `needle` occurs as a contiguous sublist of `hay`. -/
def containsL (needle : List Char) : List Char → Bool
  | [] => needle.isEmpty
  | c :: rest => List.isPrefixOf needle (c :: rest) || containsL needle rest

/-- Python substring test `needle in haystack`. -/
def containsSub (needle haystack : String) : Bool :=
  containsL needle.data haystack.data

/-- Python `l[-n:]`: the last `n` elements of a list. -/
def takeLast {α : Type} (n : Nat) (l : List α) : List α := l.drop (l.length - n)

/-! Currency conversion — `tools/CurrencyTool_fixed.py`, `CurrencyTool.execute`.
The `currency_converter` library is abstracted as an oracle
`conv : Option (ℚ → String → String → Option ℚ)`: `none` for an unavailable
converter (`self.converter is None`), and an inner `none` for a call that
raises.  Amounts are modelled as rationals; `round(x, n)` is modelled as
rounding to `n` decimal places (only reached on the differing-currency path). -/

structure CurrencyResult where
  original_amount : ℚ
  converted_amount : ℚ
  rate : ℚ
  fromCur : String
  toCur : String
  status : String
  source : Option String
  note : Option String
deriving DecidableEq

/-- The static fallback exchange-rate table of `CurrencyTool.__init__`. -/
def fallback_rates : List ((String × String) × ℚ) :=
  [(("USD", "EUR"), 85/100), (("EUR", "USD"), 118/100),
   (("USD", "GBP"), 73/100), (("GBP", "USD"), 137/100),
   (("USD", "JPY"), 110), (("JPY", "USD"), 91/10000),
   (("USD", "INR"), 75), (("INR", "USD"), 13/1000),
   (("EUR", "GBP"), 86/100), (("GBP", "EUR"), 116/100),
   (("USD", "CAD"), 125/100), (("CAD", "USD"), 80/100),
   (("USD", "AUD"), 135/100), (("AUD", "USD"), 74/100)]

/-- Round a rational to `n` decimal places (models Python `round(x, n)` up to
float representation; irrelevant to the same-currency short-circuit). -/
def roundTo (n : Nat) (q : ℚ) : ℚ := ((round (q * 10 ^ n) : ℤ) : ℚ) / 10 ^ n

/-- CurrencyTool.execute.  Same-currency conversions short-circuit before any
converter or fallback-table access. -/
def currencyExecute (conv : Option (ℚ → String → String → Option ℚ))
    (amount : ℚ) (from_currency to_currency : String) : CurrencyResult :=
  if pyUpper from_currency == pyUpper to_currency then
    { original_amount := amount, converted_amount := amount, rate := 1,
      fromCur := pyUpper from_currency, toCur := pyUpper to_currency,
      status := "success", source := none, note := none }
  else
    let viaFallback : CurrencyResult :=
      let rate :=
        match fallback_rates.lookup (pyUpper from_currency, pyUpper to_currency) with
        | some r => r
        | none =>
          match fallback_rates.lookup (pyUpper to_currency, pyUpper from_currency) with
          | some r => 1 / r
          | none => 1
      { original_amount := amount, converted_amount := roundTo 2 (amount * rate),
        rate := roundTo 4 rate, fromCur := pyUpper from_currency,
        toCur := pyUpper to_currency, status := "success",
        source := some "fallback_rates", note := some "Using approximate exchange rates" }
    match conv with
    | some c =>
      match c amount from_currency to_currency, c 1 from_currency to_currency with
      | some converted, some rate =>
        { original_amount := amount, converted_amount := roundTo 2 converted,
          rate := roundTo 4 rate, fromCur := pyUpper from_currency,
          toCur := pyUpper to_currency, status := "success",
          source := some "currency_converter", note := none }
      | _, _ => viaFallback
    | none => viaFallback

/-! City-name to code resolution — `mcp_server/tools.py`
(`convert_city_to_skyid`, `convert_city_to_hotel_code`) and
`tools/FlightSearchTool.py` (`FlightSearchTool._convert_to_sky_id`).
The mapping dictionaries are transcribed verbatim; `dict.get(k, default)`
becomes `List.lookup` with a default.  All three functions are total
(they never raise). -/

def skyid_city_mappings : List (String × String) :=
  [("mumbai", "BOM"), ("bombay", "BOM"), ("hyderabad", "HYD"), ("delhi", "DEL"),
   ("new delhi", "DEL"), ("chennai", "MAA"), ("madras", "MAA"), ("bangalore", "BLR"),
   ("bengaluru", "BLR"), ("kolkata", "CCU"), ("calcutta", "CCU"), ("pune", "PNQ"),
   ("goa", "GOI"), ("ahmedabad", "AMD"), ("kochi", "COK"), ("cochin", "COK"),
   ("thiruvananthapuram", "TRV"), ("trivandrum", "TRV"), ("jaipur", "JAI"),
   ("lucknow", "LKO"), ("chandigarh", "IXC"), ("indore", "IDR"), ("nagpur", "NAG"),
   ("vadodara", "BDQ"), ("visakhapatnam", "VTZ"), ("bhubaneswar", "BBI"),
   ("coimbatore", "CJB"), ("vijayawada", "VGA"), ("srinagar", "SXR"),
   ("agartala", "IXA"), ("imphal", "IMF"), ("dibrugarh", "DIB"), ("guwahati", "GAU"),
   ("raipur", "RPR"), ("ranchi", "IXR"), ("jodhpur", "JDH"), ("udaipur", "UDR"),
   ("jammu", "IXJ"), ("patna", "PAT"), ("varanasi", "VNS"), ("aurangabad", "IXU"),
   ("mangalore", "IXE"), ("hubli", "HBX"), ("tirupati", "TIR"), ("rajkot", "RAJ"),
   ("bhavnagar", "BHU"), ("porbandar", "PBD"),
   ("london", "LHR"), ("new york", "JFK"), ("paris", "CDG"), ("tokyo", "NRT"),
   ("dubai", "DXB"), ("singapore", "SIN"), ("kuala lumpur", "KUL"),
   ("bangkok", "BKK"), ("bali", "DPS"), ("hong kong", "HKG"),
   ("san francisco", "SFO"), ("los angeles", "LAX"), ("chicago", "ORD"),
   ("toronto", "YYZ"), ("sydney", "SYD"), ("melbourne", "MEL"), ("auckland", "AKL"),
   ("amsterdam", "AMS"), ("frankfurt", "FRA"), ("istanbul", "IST"), ("doha", "DOH"),
   ("moscow", "SVO"), ("beijing", "PEK"), ("shanghai", "PVG"), ("seoul", "ICN"),
   ("cairo", "CAI"), ("johannesburg", "JNB"), ("rio de janeiro", "GIG"),
   ("buenos aires", "EZE")]

def hotel_city_mappings : List (String × String) :=
  [("paris", "PAR"), ("london", "LON"), ("new york", "NYC"), ("tokyo", "TYO"),
   ("dubai", "DXB"), ("singapore", "SIN"), ("bangkok", "BKK"), ("hong kong", "HKG"),
   ("madrid", "MAD"), ("barcelona", "BCN"), ("rome", "ROM"), ("milan", "MIL"),
   ("amsterdam", "AMS"), ("berlin", "BER"), ("munich", "MUC"), ("vienna", "VIE"),
   ("zurich", "ZUR"), ("istanbul", "IST"), ("moscow", "MOW"), ("sydney", "SYD"),
   ("melbourne", "MEL"),
   ("mumbai", "BOM"), ("delhi", "DEL"), ("bangalore", "BLR"), ("chennai", "MAA"),
   ("kolkata", "CCU"), ("hyderabad", "HYD"), ("pune", "PNQ"), ("ahmedabad", "AMD"),
   ("jaipur", "JAI"), ("kochi", "COK"), ("goa", "GOI")]

def flight_tool_city_mappings : List (String × String) :=
  [("mumbai", "BOM"), ("bombay", "BOM"), ("delhi", "DEL"), ("new delhi", "DEL"),
   ("bangalore", "BLR"), ("bengaluru", "BLR"), ("chennai", "MAA"), ("madras", "MAA"),
   ("kolkata", "CCU"), ("calcutta", "CCU"), ("hyderabad", "HYD"), ("pune", "PNQ"),
   ("ahmedabad", "AMD"), ("kochi", "COK"), ("cochin", "COK"), ("goa", "GOI"),
   ("jaipur", "JAI"),
   ("london", "LHR"), ("new york", "JFK"), ("nyc", "JFK"), ("paris", "CDG"),
   ("tokyo", "NRT"), ("dubai", "DXB"), ("singapore", "SIN"), ("bangkok", "BKK"),
   ("bali", "DPS"), ("sydney", "SYD"), ("los angeles", "LAX"),
   ("san francisco", "SFO"), ("chicago", "ORD"), ("toronto", "YYZ"),
   ("amsterdam", "AMS"), ("frankfurt", "FRA"), ("madrid", "MAD"), ("rome", "FCO"),
   ("istanbul", "IST"), ("doha", "DOH")]

/-- convert_city_to_skyid: table lookup on the lower-cased name; unmapped names
fall back to the FULL upper-cased input (`city.upper()`, no truncation). -/
def convert_city_to_skyid (city : String) : String :=
  (skyid_city_mappings.lookup (pyLower city)).getD (pyUpper city)

/-- convert_city_to_hotel_code: table lookup; unmapped names fall back to the
first three characters upper-cased (`city[:3].upper()`). -/
def convert_city_to_hotel_code (city : String) : String :=
  (hotel_city_mappings.lookup (pyLower city)).getD (pyUpper (pyTakeStr 3 city))

/-- FlightSearchTool._convert_to_sky_id: lookup on `city.lower().strip()`;
unmapped names fall back to `city.upper()[:3]`. -/
def flight_convert_to_sky_id (city : String) : String :=
  (flight_tool_city_mappings.lookup (pyStrip (pyLower city))).getD
    (pyTakeStr 3 (pyUpper city))

/-! Conversation sessions — `mcp_server/server.py`, `ConversationSession`.
The LangChain `ConversationBufferWindowMemory(k=10)` stores every added
message in `chat_memory.messages` (unbounded); the `k`-exchange window applies
only when `load_memory_variables` assembles the prompt history, which returns
`messages[-k*2:]`.  Timestamps are modelled as integer seconds. -/

inductive ChatMsg where
  | human (content : String)
  | ai (content : String)
deriving DecidableEq

structure ConversationSession where
  messages : List ChatMsg
  created_at : Int
  last_activity : Int
deriving DecidableEq

def newSession (now : Int) : ConversationSession :=
  { messages := [], created_at := now, last_activity := now }

/-- ConversationSession.add_message: "user" appends a HumanMessage, "assistant"
an AIMessage, any other role falls through both branches (nothing stored);
`last_activity` is refreshed unconditionally. -/
def add_message (s : ConversationSession) (role content : String) (now : Int) :
    ConversationSession :=
  { s with
    messages :=
      if role == "user" then s.messages ++ [ChatMsg.human content]
      else if role == "assistant" then s.messages ++ [ChatMsg.ai content]
      else s.messages,
    last_activity := now }

/-- ConversationSession.get_messages: converts the FULL `chat_memory.messages`
list to role/content dicts (no windowing). -/
def get_messages (s : ConversationSession) : List (String × String) :=
  s.messages.map fun m =>
    match m with
    | ChatMsg.human c => ("user", c)
    | ChatMsg.ai c => ("assistant", c)

/-- ConversationBufferWindowMemory.load_memory_variables with k = 10: the
prompt history is `chat_memory.messages[-k*2:]`. -/
def load_memory_window (s : ConversationSession) : List ChatMsg :=
  takeLast 20 s.messages

/-- ConversationSession.is_expired with the default max_age_hours = 24. -/
def is_expired (s : ConversationSession) (now : Int) : Bool :=
  decide (now - s.last_activity > 24 * 3600)

/-- Applying a batch of add_message calls (role, content, timestamp). -/
def apply_messages (s : ConversationSession) (ops : List (String × String × Int)) :
    ConversationSession :=
  ops.foldl (fun s p => add_message s p.1 p.2.1 p.2.2) s

/-- A 12-exchange conversation: 24 alternating user/assistant messages. -/
def sampleConversation : ConversationSession :=
  (List.range 12).foldl
    (fun s i => add_message (add_message s "user" (toString i) 0) "assistant" (toString i) 0)
    (newSession 0)

/-! Conversation lookup / delete endpoints — `mcp_server/server.py`,
`get_conversation` and `delete_conversation`.  The session store is the
`conversation_sessions` dict.  `get_conversation` raises HTTPException 404
("Session not found") for an unknown id; `delete_conversation` returns the
same success payload whether or not the id exists. -/

inductive GetConvOutcome where
  | ok (history : List (String × String))
  | httpError (status : Nat) (detail : String)
deriving DecidableEq

def get_conversation (store : List (String × ConversationSession)) (sid : String) :
    GetConvOutcome :=
  match store.lookup sid with
  | some s => GetConvOutcome.ok (get_messages s)
  | none => GetConvOutcome.httpError 404 "Session not found"

/-- delete_conversation returns (status, message) and the updated store; the
response does not depend on whether the id was present. -/
def delete_conversation (store : List (String × ConversationSession)) (sid : String) :
    (String × String) × List (String × ConversationSession) :=
  if (store.lookup sid).isSome then
    (("success", "Session deleted"), store.filter (fun p => p.1 != sid))
  else
    (("success", "Session deleted"), store)

/-! Datetimes.  All the flight code needs are `strftime('%Y-%m-%d')`,
`isoformat()` and `replace(hour=…, minute=…, second=0, microsecond=0)`;
microseconds are always zeroed before printing, so they are omitted. -/

structure PyDateTime where
  year : Nat
  month : Nat
  day : Nat
  hour : Nat
  minute : Nat
  second : Nat
deriving DecidableEq

/-- Zero-padded 2-digit field, as in `%m`, `%d`, `%H`, `%M`, `{n:02d}`. -/
def pad2 (n : Nat) : String := if n < 10 then "0" ++ toString n else toString n

/-- Zero-padded 4-digit year, as in `%Y`. -/
def pad4 (n : Nat) : String :=
  if n < 10 then "000" ++ toString n
  else if n < 100 then "00" ++ toString n
  else if n < 1000 then "0" ++ toString n
  else toString n

def strftimeYMD (d : PyDateTime) : String :=
  pad4 d.year ++ "-" ++ pad2 d.month ++ "-" ++ pad2 d.day

def isoformat (d : PyDateTime) : String :=
  strftimeYMD d ++ "T" ++ pad2 d.hour ++ ":" ++ pad2 d.minute ++ ":" ++ pad2 d.second

/-- `date.replace(hour=h, minute=m, second=0, microsecond=0)`.  Python's
`datetime.replace` validates the replaced fields and raises ValueError for an
out-of-range hour or minute (hour checked before minute, as in the datetime
constructor); the unchanged date fields come from an already-valid datetime. -/
def replaceTime (d : PyDateTime) (h m : Nat) : Except String PyDateTime :=
  if h ≤ 23 then
    if m ≤ 59 then Except.ok { d with hour := h, minute := m, second := 0 }
    else Except.error "ValueError: minute must be in 0..59"
  else Except.error "ValueError: hour must be in 0..23"

/-! Flight search fallback — `tools/travel_tools.py`, `FlightSearchTool`.
`_get_fallback_flights` tries to synthesize 3 flights with stops 0, 1, 2,
but its third loop iteration passes `minute=60` to `datetime.replace`, which
raises ValueError.  The round-trip price `int(price * 1.8)` is modelled as
`price * 18 / 10` in ℕ (exact for every base price in the table, all of which
make `price * 1.8` an integer-valued float). -/

structure FlightInfo where
  airline : String
  flight_number : String
  departure : String
  arrival : String
  departure_time : String
  arrival_time : String
  price : String
  duration : String
  stops : Nat
  trip_type : String
  departure_date : String
  return_departure_time : Option String
  return_arrival_time : Option String
  return_duration : Option String
  return_date : Option String
deriving DecidableEq

def tt_airlines : List String :=
  ["Air India", "Emirates", "British Airways", "Lufthansa",
   "Singapore Airlines", "Qatar Airways"]

def tt_base_prices : List Nat := [450, 650, 850, 1200, 1500]

/-- One iteration of the `for i in range(3)` loop of `_get_fallback_flights`,
with the `datetime.replace` calls in source order (departure, arrival, then
the return pair for round trips); the first ValueError propagates.  At
`i = 2` the arrival minute is `30 + 2 * 15 = 60`, so the iteration raises. -/
def ttFallbackFlight (origin destination : String) (date : PyDateTime)
    (return_date : Option PyDateTime) (i : Nat) : Except String FlightInfo :=
  let airline := (tt_airlines.get? (i % tt_airlines.length)).getD ""
  let basePrice := (tt_base_prices.get? (i % tt_base_prices.length)).getD 0
  let price := match return_date with
    | some _ => basePrice * 18 / 10
    | none => basePrice
  let departure_hour := 8 + i * 2
  let arrival_hour := departure_hour + 6 + i
  match replaceTime date departure_hour 0 with
  | Except.error e => Except.error e
  | Except.ok departure_datetime =>
    match replaceTime date arrival_hour (30 + i * 15) with
    | Except.error e => Except.error e
    | Except.ok arrival_datetime =>
      let base : FlightInfo :=
        { airline := airline,
          flight_number := pyUpper (pyTakeStr 2 airline) ++ toString (1000 + i),
          departure := origin,
          arrival := destination,
          departure_time := isoformat departure_datetime,
          arrival_time := isoformat arrival_datetime,
          price := "$" ++ toString price,
          duration := toString (6 + i) ++ "h " ++ toString (30 + i * 15) ++ "m",
          stops := i,
          trip_type := match return_date with | some _ => "round-trip" | none => "one-way",
          departure_date := strftimeYMD date,
          return_departure_time := none,
          return_arrival_time := none,
          return_duration := none,
          return_date := none }
      match return_date with
      | none => Except.ok base
      | some rd =>
        match replaceTime rd (10 + i * 2) 0 with
        | Except.error e => Except.error e
        | Except.ok return_departure_datetime =>
          match replaceTime rd (10 + i * 2 + 6 + i) (45 + i * 10) with
          | Except.error e => Except.error e
          | Except.ok return_arrival_datetime =>
            Except.ok
              { base with
                return_departure_time := some (isoformat return_departure_datetime),
                return_arrival_time := some (isoformat return_arrival_datetime),
                return_duration :=
                  some (toString (6 + i) ++ "h " ++ toString (45 + i * 10) ++ "m"),
                return_date := some (strftimeYMD rd) }

/-- FlightSearchTool._get_fallback_flights (travel_tools.py): the `for i in
range(3)` loop, stopping at the first raising iteration.  Because the third
iteration always computes an invalid arrival minute of 60, this function
raises ValueError on every input instead of returning 3 flights. -/
def tt_get_fallback_flights (origin destination : String) (date : PyDateTime)
    (return_date : Option PyDateTime) : Except String (List FlightInfo) :=
  (List.range 3).mapM (ttFallbackFlight origin destination date return_date)

/-- The outcome of the Amadeus provider adapter as seen by
`FlightSearchTool.execute`: either the parsed flight list of a successful
`_search_with_amadeus` call, or a raise (any exception, caught by both the
inner and outer handlers, which fall back). -/
inductive AmadeusOutcome where
  | raises
  | ok (flights : List FlightInfo)

/-- FlightSearchTool.execute (travel_tools.py): with Amadeus unavailable or
the adapter raising, the try body evaluates `_get_fallback_flights` (directly
or via `_search_with_amadeus`'s own handler); if that raises, the outer
`except` handler calls `_get_fallback_flights` once more, and an exception
raised there propagates to the caller uncaught. -/
def tt_execute (use_amadeus : Bool) (adapter : AmadeusOutcome)
    (origin destination : String) (date : PyDateTime)
    (return_date : Option PyDateTime) : Except String (List FlightInfo) :=
  let primary : Except String (List FlightInfo) :=
    if use_amadeus then
      match adapter with
      | AmadeusOutcome.ok fs => Except.ok fs
      | AmadeusOutcome.raises => tt_get_fallback_flights origin destination date return_date
    else tt_get_fallback_flights origin destination date return_date
  match primary with
  | Except.ok fs => Except.ok fs
  | Except.error _ => tt_get_fallback_flights origin destination date return_date

/-! Flight search fallback — `tools/FlightSearchTool.py` (RapidAPI variant).
`_get_fallback_flights` here draws from `random`; the module is abstracted as
a draw oracle `o : ℕ → ℕ`, with `random.randint(a, b)` at draw index `k`
modelled as `a + o k % (b - a + 1)` and `random.choice(l)` as indexing by
`o k % l.length`.  Whatever the oracle returns, each `stops` value is
`random.choice([0, 0, 0, 1]) ∈ {0, 1}`. -/

structure RapidFlight where
  airline : String
  flight_number : String
  price : String
  departure_time : String
  arrival_time : String
  duration : String
  stops : Nat
  departure : String
  arrival : String
  booking_class : String
deriving DecidableEq

def rapid_airlines : List String :=
  ["IndiGo", "Air India", "SpiceJet", "Vistara", "GoAir",
   "Emirates", "Qatar Airways", "Lufthansa", "British Airways"]

def rapid_flight_codes : List String := ["6E", "AI", "SG", "UK"]

def rapid_booking_classes : List String :=
  ["Economy", "Economy", "Premium Economy", "Business"]

def rapid_domestic_routes : List String :=
  ["mumbai", "delhi", "bangalore", "chennai", "hyderabad", "pune"]

/-- Python `f"{n:,}"` thousands grouping for a natural number. -/
def commaGroup : List Char → List Char
  | a :: b :: c :: d :: rest => a :: b :: c :: ',' :: commaGroup (d :: rest)
  | l => l

def fmtComma (n : Nat) : String := ⟨(commaGroup (toString n).data.reverse).reverse⟩

/-- `random.randint(a, b)` at draw index `k` (inclusive bounds). -/
def randN (o : Nat → Nat) (k a b : Nat) : Nat := a + o k % (b - a + 1)

/-- One iteration of the `for i in range(3)` loop of the RapidAPI
`_get_fallback_flights`, threading the (base_hour, departure_time,
arrival_time) state mutated at the end of each iteration.  Draw indices 5–16
of iteration 0 continue the 5 pre-loop draws, 12 draws per iteration. -/
def rapidIter (o : Nat → Nat) (origin destination : String) (dom : Bool)
    (base_price : Nat) (i : Nat) (st : Nat × String × String) :
    RapidFlight × (Nat × String × String) :=
  let b := 5 + 12 * i
  let variation : Int := (-20) + (o b : Int) % 51
  let final_price : Int := (base_price : Int) + Int.fdiv ((base_price : Int) * variation) 100
  let flight : RapidFlight :=
    { airline := (rapid_airlines.get? (o (b + 1) % rapid_airlines.length)).getD "",
      flight_number :=
        (rapid_flight_codes.get? (o (b + 2) % rapid_flight_codes.length)).getD ""
          ++ toString (randN o (b + 3) 100 999),
      price :=
        if dom then "₹" ++ fmtComma final_price.toNat
        else "$" ++ fmtComma (Int.fdiv final_price 80).toNat,
      departure_time := st.2.1,
      arrival_time := st.2.2,
      duration := toString (randN o (b + 4) 1 8) ++ "h " ++ toString (randN o (b + 5) 0 59) ++ "m",
      stops := ([0, 0, 0, 1].get? (o (b + 6) % 4)).getD 0,
      departure := origin,
      arrival := destination,
      booking_class :=
        (rapid_booking_classes.get? (o (b + 7) % rapid_booking_classes.length)).getD "" }
  let bh2 := (st.1 + randN o (b + 8) 2 4) % 24
  let dt2 := pad2 bh2 ++ ":" ++ pad2 (randN o (b + 9) 0 5 * 10)
  let ah2 := (bh2 + randN o (b + 10) 1 8) % 24
  let at2 := pad2 ah2 ++ ":" ++ pad2 (randN o (b + 11) 0 5 * 10)
  (flight, (bh2, dt2, at2))

/-- FlightSearchTool._get_fallback_flights (RapidAPI variant). -/
def rapid_fallback_flights (o : Nat → Nat) (origin destination : String) :
    List RapidFlight :=
  let base_hour := randN o 0 6 22
  let dep0 := pad2 base_hour ++ ":" ++ pad2 (randN o 1 0 5 * 10)
  let arr_h := (base_hour + randN o 2 1 8) % 24
  let arr0 := pad2 arr_h ++ ":" ++ pad2 (randN o 3 0 5 * 10)
  let dom := rapid_domestic_routes.contains (pyLower origin)
    && rapid_domestic_routes.contains (pyLower destination)
  let base_price := if dom then randN o 4 3000 15000 else randN o 4 25000 80000
  let r0 := rapidIter o origin destination dom base_price 0 (base_hour, dep0, arr0)
  let r1 := rapidIter o origin destination dom base_price 1 r0.2
  let r2 := rapidIter o origin destination dom base_price 2 r1.2
  [r0.1, r1.1, r2.1]

/-- FlightSearchTool.execute (FlightSearchTool.py): no API key, a raising
adapter, and an empty adapter result all fall back to
`_get_fallback_flights`. -/
def rapid_execute (api_key : Option String) (adapter : Except String (List RapidFlight))
    (o : Nat → Nat) (origin destination : String) : List RapidFlight :=
  match api_key with
  | none => rapid_fallback_flights o origin destination
  | some _ =>
    match adapter with
    | Except.ok fs =>
      if fs.length > 0 then fs else rapid_fallback_flights o origin destination
    | Except.error _ => rapid_fallback_flights o origin destination

/-! Python values.  Raw provider/LLM payloads are dynamically typed; the
embedding covers strings, integers, decimal floats (mantissa/shift pairs,
e.g. 4.5 as `fl 45 1`), lists and dicts — the shapes the validators and cost
code inspect.  `pyStr` renders containers in bracketed comma form without
Python's element quoting; only the digit-filter over container-typed duration
values could observe the difference, and no claim exercises that. -/

inductive PyVal where
  | s (x : String)
  | i (n : Int)
  | fl (num : Int) (shift : Nat)
  | l (xs : List PyVal)
  | d (kvs : List (String × PyVal))

/-- Dict lookup; Python dict construction keeps the last write for a key. -/
def dget (kvs : List (String × PyVal)) (k : String) : Option PyVal :=
  (kvs.reverse.find? (fun p => p.1 == k)).map (fun p => p.2)

/-- `data.get(k, default)`. -/
def pyGetD (kvs : List (String × PyVal)) (k : String) (dflt : PyVal) : PyVal :=
  (dget kvs k).getD dflt

/-- Python truthiness of a value. -/
def truthy : PyVal → Bool
  | PyVal.s x => !(x == "")
  | PyVal.i n => !(n == 0)
  | PyVal.fl n _ => !(n == 0)
  | PyVal.l xs => !xs.isEmpty
  | PyVal.d kvs => !kvs.isEmpty

/-- Truthiness of `data.get(k)` whose default is None (falsy). -/
def truthyOpt : Option PyVal → Bool
  | none => false
  | some v => truthy v

/-- `str()` of a decimal float: digits with a decimal point `shift` places
from the right (`str(4.5) = "4.5"`, `str(800.0) = "800.0"`). -/
def pyStrFloat (num : Int) (shift : Nat) : String :=
  let sign := if num < 0 then "-" else ""
  let ds := (toString num.natAbs).data
  if shift = 0 then sign ++ ⟨ds⟩ ++ ".0"
  else
    let padded := if ds.length ≤ shift then List.replicate (shift + 1 - ds.length) '0' ++ ds else ds
    sign ++ ⟨padded.take (padded.length - shift)⟩ ++ "." ++ ⟨padded.drop (padded.length - shift)⟩

mutual

/-- Python `str()` of a value (containers simplified: no element quoting). -/
def pyStr : PyVal → String
  | PyVal.s x => x
  | PyVal.i n => toString n
  | PyVal.fl n e => pyStrFloat n e
  | PyVal.l xs => "[" ++ pyStrList xs ++ "]"
  | PyVal.d kvs => "\x7b" ++ pyStrDict kvs ++ "\x7d"

def pyStrList : List PyVal → String
  | [] => ""
  | [x] => pyStr x
  | x :: y :: rest => pyStr x ++ ", " ++ pyStrList (y :: rest)

def pyStrDict : List (String × PyVal) → String
  | [] => ""
  | [p] => p.1 ++ ": " ++ pyStr p.2
  | p :: q :: rest => p.1 ++ ": " ++ pyStr p.2 ++ ", " ++ pyStrDict (q :: rest)

end

/-! Itinerary total cost — `agents/travel_agent.py`,
`TravelAgent._calculate_total_cost`.  Each price field is stringified, has
only `'$'` and `','` characters removed, and is then passed to `float()`,
which raises ValueError on anything that is not a bare numeric literal.
`pyFloat` models `float()` on finite decimal/exponent literals (the only
shapes this code can meet); amounts are rationals. -/

def digitsToNat (ds : List Char) : Nat :=
  ds.foldl (fun n c => n * 10 + (c.toNat - 48)) 0

/-- Exponent suffix of a float literal: optional sign then ≥ 1 digits. -/
def pyFloatExp (cs : List Char) : Option Int :=
  let signed : Int × List Char :=
    match cs with
    | '+' :: rest => (1, rest)
    | '-' :: rest => (-1, rest)
    | _ => (1, cs)
  let ds := signed.2.takeWhile Char.isDigit
  if ds.isEmpty || !(signed.2.dropWhile Char.isDigit).isEmpty then none
  else some (signed.1 * (digitsToNat ds : Int))

/-- Scale a rational by `10 ^ ex` (kernel-computable core Rat operations). -/
def scalePow10 (q : ℚ) (ex : Int) : ℚ :=
  if 0 ≤ ex then Rat.mul q (mkRat ((10 : Nat) ^ ex.toNat : Nat) 1)
  else Rat.mul q (mkRat 1 ((10 : Nat) ^ (-ex).toNat))

/-- Python `float(s)` on finite decimal literals: optional surrounding
whitespace, optional sign, `digits[.digits][exponent]` or `.digits[exponent]`;
anything else raises ValueError (`none`). -/
def pyFloat (s : String) : Option ℚ :=
  let cs := (s.data.dropWhile isPySpace).reverse.dropWhile isPySpace |>.reverse
  let signed : Int × List Char :=
    match cs with
    | '+' :: rest => (1, rest)
    | '-' :: rest => (-1, rest)
    | _ => (1, cs)
  let intPart := signed.2.takeWhile Char.isDigit
  let rest1 := signed.2.dropWhile Char.isDigit
  match rest1 with
  | [] =>
    if intPart.isEmpty then none
    else some (mkRat (signed.1 * (digitsToNat intPart : Int)) 1)
  | '.' :: rest2 =>
    let frac := rest2.takeWhile Char.isDigit
    let rest3 := rest2.dropWhile Char.isDigit
    if intPart.isEmpty && frac.isEmpty then none
    else
      let mant : ℚ := mkRat
        (signed.1 * (digitsToNat intPart * 10 ^ frac.length + digitsToNat frac : Int))
        ((10 : Nat) ^ frac.length)
      match rest3 with
      | [] => some mant
      | e :: rest4 =>
        if e == 'e' || e == 'E' then
          (pyFloatExp rest4).map (fun ex => scalePow10 mant ex)
        else none
  | e :: rest2 =>
    if (e == 'e' || e == 'E') && !intPart.isEmpty then
      (pyFloatExp rest2).map (fun ex =>
        scalePow10 (mkRat (signed.1 * (digitsToNat intPart : Int)) 1) ex)
    else none

/-- Python `str.replace(c, '')` for a single-character pattern: remove every
occurrence of `c`. -/
def removeChar (c : Char) (s : String) : String :=
  ⟨s.data.filter (fun x => x != c)⟩

/-- `float(str(rec.get('price', '0')).replace('$', '').replace(',', ''))` for
one record; `none` models the ValueError. -/
def recordPrice (rec : List (String × PyVal)) : Option ℚ :=
  pyFloat (removeChar ',' (removeChar '$' (pyStr (pyGetD rec "price" (PyVal.s "0")))))

/-- Sum the parsed prices of a record list, propagating the first ValueError. -/
def sumPrices : List (List (String × PyVal)) → Except String ℚ
  | [] => Except.ok (mkRat 0 1)
  | rec :: rest =>
    match recordPrice rec with
    | none => Except.error "ValueError: could not convert string to float"
    | some q =>
      match sumPrices rest with
      | Except.error e => Except.error e
      | Except.ok acc => Except.ok (Rat.add q acc)

/-- TravelAgent._calculate_total_cost. -/
def calculate_total_cost (flights hotels activities : List (List (String × PyVal))) :
    Except String ℚ :=
  match sumPrices flights with
  | Except.error e => Except.error e
  | Except.ok fc =>
    match sumPrices hotels with
    | Except.error e => Except.error e
    | Except.ok hc =>
      match sumPrices activities with
      | Except.error e => Except.error e
      | Except.ok ac => Except.ok (Rat.add (Rat.add fc hc) ac)

/-- The fallback hotel returned by TravelAgent.search_hotels when the hotel
provider raises — note its price text "$200 per night". -/
def fallback_hotel (location : String) : List (String × PyVal) :=
  [("name", PyVal.s "Grand Hotel"),
   ("rating", PyVal.fl 45 1),
   ("price", PyVal.s "$200 per night"),
   ("address", PyVal.s ("123 Main Street, " ++ location)),
   ("amenities", PyVal.l [PyVal.s "Pool", PyVal.s "Spa", PyVal.s "Restaurant",
     PyVal.s "Gym", PyVal.s "Free WiFi"])]

/-- The fallback flight returned by TravelAgent.search_flights when the flight
provider raises (price is the integer 800). -/
def fallback_flight (origin destination : String) (date : PyDateTime) :
    List (String × PyVal) :=
  [("date", PyVal.s (strftimeYMD date)),
   ("price", PyVal.i 800),
   ("airline", PyVal.s "Global Airways"),
   ("flight_number", PyVal.s "GA123"),
   ("departure", PyVal.s origin),
   ("arrival", PyVal.s destination)]

/-! Suggestion validators — `agents/travel_agent.py`,
`SmartTravelAgent._validate_suggestion_data`, and `tools/travel_tools.py`,
`ItineraryPlannerTool._validate_suggestions`.  Raw suggestions are PyVal
dicts; Python operations that can raise (slicing a dict, `item["title"]` on a
non-dict or missing key, `.get` on a non-dict, iterating a number) return
`Except.error`. -/

/-- Python `for x in v` as a list of iterates (strings yield characters,
dicts yield their keys; numbers raise TypeError). -/
def pyIter : PyVal → Except String (List PyVal)
  | PyVal.l xs => Except.ok xs
  | PyVal.s x => Except.ok (x.data.map (fun c => PyVal.s ⟨[c]⟩))
  | PyVal.d kvs => Except.ok (kvs.map (fun p => PyVal.s p.1))
  | _ => Except.error "TypeError: object is not iterable"

/-- Python `v[k]` for a string key: KeyError on a dict without the key,
TypeError on anything that is not a dict. -/
def pySubscriptStr (v : PyVal) (k : String) : Except String PyVal :=
  match v with
  | PyVal.d kvs =>
    match dget kvs k with
    | some x => Except.ok x
    | none => Except.error ("KeyError: " ++ k)
  | _ => Except.error "TypeError: value is not subscriptable by string"

/-- Python `v.get(k, dflt)`: AttributeError on anything that is not a dict. -/
def pyDictGet (v : PyVal) (k : String) (dflt : PyVal) : Except String PyVal :=
  match v with
  | PyVal.d kvs => Except.ok (pyGetD kvs k dflt)
  | _ => Except.error "AttributeError: object has no attribute get"

/-- Python `v[:n]`: strings and lists are truncated; slicing a dict or a
number raises TypeError. -/
def pySliceVal (v : PyVal) (n : Nat) : Except String PyVal :=
  match v with
  | PyVal.s x => Except.ok (PyVal.s ⟨x.data.take n⟩)
  | PyVal.l xs => Except.ok (PyVal.l (xs.take n))
  | PyVal.d _ => Except.error "TypeError: unhashable type: slice"
  | _ => Except.error "TypeError: object is not subscriptable"

/-- `isinstance(v, str)` wrapping: `if isinstance(x, str): x = [x]`. -/
def strWrap (v : PyVal) : PyVal :=
  match v with
  | PyVal.s x => PyVal.l [PyVal.s x]
  | v => v

/-- `xs[:cap] or dflt`. -/
def capOrDefault (cap : Nat) (dflt xs : List PyVal) : List PyVal :=
  if (xs.take cap).isEmpty then dflt else xs.take cap

/-- The trailing `value[:cap] or default` of each list field of
`_validate_suggestion_data`.  After the isinstance-str wrapping the sliced
value is never a string, so the non-list branches are the TypeErrors Python
raises when slicing a dict or a number. -/
def sliceStep (cap : Nat) (dflt : List PyVal) (e : Except String PyVal) :
    Except String (List PyVal) :=
  match e with
  | Except.error er => Except.error er
  | Except.ok (PyVal.l xs) => Except.ok (capOrDefault cap dflt xs)
  | Except.ok (PyVal.d _) => Except.error "TypeError: unhashable type: slice"
  | Except.ok _ => Except.error "TypeError: object is not subscriptable"

def agent_activities_default : List PyVal :=
  [PyVal.s "Local exploration", PyVal.s "Cultural activities",
   PyVal.s "Food experiences", PyVal.s "Nature exploration", PyVal.s "Local markets"]

def agent_accommodations_default : List PyVal :=
  [PyVal.s "Recommended hotels", PyVal.s "Local guesthouses", PyVal.s "Budget options"]

def agent_transportation_default : List PyVal :=
  [PyVal.s "Public transportation", PyVal.s "Walking tours"]

def agent_local_tips_default : List PyVal :=
  [PyVal.s "Research local customs", PyVal.s "Learn basic phrases",
   PyVal.s "Follow local guidelines"]

/-- Destination extraction of `_validate_suggestion_data`: default "Unknown",
with a name+country composite when a `name` field is present. -/
def agentDestination (data : List (String × PyVal)) : PyVal :=
  let destination := pyGetD data "destination" (PyVal.s "Unknown")
  let isUnknown : Bool :=
    match destination with
    | PyVal.s x => x == "Unknown"
    | _ => false
  if isUnknown && truthyOpt (dget data "name") then
    PyVal.s (pyStr ((dget data "name").getD (PyVal.s ""))
      ++ ", " ++ pyStr (pyGetD data "country" (PyVal.s "Location Unknown")))
  else destination

/-- Description extraction: defaults to the EMPTY string, falling back to a
capitalised `Description` key only when one is present and truthy. -/
def agentDescription (data : List (String × PyVal)) : PyVal :=
  let description := pyGetD data "description" (PyVal.s "")
  if !truthy description && truthyOpt (dget data "Description") then
    (dget data "Description").getD (PyVal.s "")
  else description

/-- Duration parsing: digits filtered out of `str(data.get("duration",
duration))`; empty digit strings fall back to the caller duration. -/
def agentDurationVal (data : List (String × PyVal)) (duration : Nat) : Nat :=
  let dstr := pyStr (pyGetD data "duration" (PyVal.i duration))
  let digits := dstr.data.filter Char.isDigit
  if digits.isEmpty then duration else digitsToNat digits

/-- Activities extraction: the raw field (strings wrapped), the
`activitySuggestions` fallbacks, then `[:5] or default`. -/
def agentActivities (data : List (String × PyVal)) : Except String (List PyVal) :=
  let acts0 := strWrap (pyGetD data "activities" (PyVal.l []))
  let acts1 : Except String PyVal :=
    if !truthy acts0 && truthyOpt (dget data "activitySuggestions") then
      match (dget data "activitySuggestions").getD (PyVal.s "") with
      | PyVal.l xs => Except.ok (PyVal.l xs)
      | PyVal.d kvs =>
        match pyIter (pyGetD kvs "options" (PyVal.l [])) with
        | Except.error e => Except.error e
        | Except.ok items =>
          match items.mapM (fun it => pySubscriptStr it "title") with
          | Except.error e => Except.error e
          | Except.ok titles => Except.ok (PyVal.l titles)
      | _ => Except.ok acts0
    else Except.ok acts0
  sliceStep 5 agent_activities_default acts1

/-- Accommodations extraction, with the `accommodations` fallbacks
(`acc.get("name", "Hotel")` raises on non-dict list items). -/
def agentAccommodations (data : List (String × PyVal)) : Except String (List PyVal) :=
  let acc0 := strWrap (pyGetD data "accommodation_suggestions" (PyVal.l []))
  let acc1 : Except String PyVal :=
    if !truthy acc0 && truthyOpt (dget data "accommodations") then
      match (dget data "accommodations").getD (PyVal.s "") with
      | PyVal.l xs =>
        match xs.mapM (fun acc => pyDictGet acc "name" (PyVal.s "Hotel")) with
        | Except.error e => Except.error e
        | Except.ok names => Except.ok (PyVal.l names)
      | PyVal.d kvs => Except.ok (PyVal.l [pyGetD kvs "name" (PyVal.s "Hotel")])
      | _ => Except.ok acc0
    else Except.ok acc0
  sliceStep 3 agent_accommodations_default acc1

/-- Transportation extraction, with the `transportInformation` fallbacks
(the `.extend`/`.append` calls presuppose the accumulator is a list — a falsy
non-list raises AttributeError as soon as the non-empty dict is iterated). -/
def agentTransportation (data : List (String × PyVal)) : Except String (List PyVal) :=
  let t0 := strWrap (pyGetD data "transportation" (PyVal.l []))
  let t1 : Except String PyVal :=
    if !truthy t0 && truthyOpt (dget data "transportInformation") then
      match (dget data "transportInformation").getD (PyVal.s "") with
      | PyVal.d kvs =>
        match t0 with
        | PyVal.l base =>
          match kvs.mapM (fun mi =>
            match mi.2 with
            | PyVal.l routes =>
              routes.mapM (fun route =>
                match pyDictGet route "routeName" (PyVal.s "Local route") with
                | Except.error e => Except.error e
                | Except.ok rn => Except.ok (PyVal.s (mi.1 ++ ": " ++ pyStr rn)))
            | _ => Except.ok [PyVal.s (mi.1 ++ ": Local routes available")]) with
          | Except.error e => Except.error e
          | Except.ok chunks => Except.ok (PyVal.l (base ++ chunks.flatten))
        | _ => Except.error "AttributeError: object has no attribute extend"
      | _ => Except.ok t0
    else Except.ok t0
  sliceStep 2 agent_transportation_default t1

/-- Local-tips extraction, with the `localTips` fallbacks
(`tip["text"]` raises on non-dict tips or missing keys). -/
def agentLocalTips (data : List (String × PyVal)) : Except String (List PyVal) :=
  let lt0 := strWrap (pyGetD data "local_tips" (PyVal.l []))
  let lt1 : Except String PyVal :=
    if !truthy lt0 && truthyOpt (dget data "localTips") then
      match (dget data "localTips").getD (PyVal.s "") with
      | PyVal.l xs => Except.ok (PyVal.l xs)
      | PyVal.d kvs =>
        match pyIter (pyGetD kvs "tips" (PyVal.l [])) with
        | Except.error e => Except.error e
        | Except.ok items =>
          match items.mapM (fun tip => pySubscriptStr tip "text") with
          | Except.error e => Except.error e
          | Except.ok texts => Except.ok (PyVal.l texts)
      | _ => Except.ok lt0
    else Except.ok lt0
  sliceStep 3 agent_local_tips_default lt1

structure SuggestionData where
  destination : PyVal
  description : PyVal
  best_time_to_visit : PyVal
  estimated_budget : PyVal
  duration : String
  activities : List PyVal
  accommodation_suggestions : List PyVal
  transportation : List PyVal
  local_tips : List PyVal
  weather_info : PyVal
  safety_info : PyVal

/-- SmartTravelAgent._validate_suggestion_data. -/
def validate_suggestion_data (data : List (String × PyVal)) (duration : Nat) :
    Except String SuggestionData :=
  match agentActivities data with
  | Except.error e => Except.error e
  | Except.ok acts =>
    match agentAccommodations data with
    | Except.error e => Except.error e
    | Except.ok accs =>
      match agentTransportation data with
      | Except.error e => Except.error e
      | Except.ok tr =>
        match agentLocalTips data with
        | Except.error e => Except.error e
        | Except.ok tips =>
          Except.ok
            { destination := agentDestination data,
              description := agentDescription data,
              best_time_to_visit := pyGetD data "best_time_to_visit" (PyVal.s "Check local seasons"),
              estimated_budget := pyGetD data "estimated_budget" (PyVal.s "Varies based on preferences"),
              duration := toString (agentDurationVal data duration),
              activities := acts,
              accommodation_suggestions := accs,
              transportation := tr,
              local_tips := tips,
              weather_info := pyGetD data "weather_info" (PyVal.s "Check local weather conditions"),
              safety_info := pyGetD data "safety_info" (PyVal.s "Follow standard travel precautions") }

/-! The travel_tools validator keeps whatever shape `suggestion.get(...)`
returned after `[:cap]`, so its list-typed output fields are PyVal (a string
value stays a truncated string). -/

structure ToolSuggestion where
  destination : PyVal
  description : PyVal
  best_time_to_visit : PyVal
  estimated_budget : PyVal
  duration : String
  activities : PyVal
  accommodation_suggestions : PyVal
  transportation : PyVal
  local_tips : PyVal
  weather_info : PyVal
  safety_info : PyVal

def tools_activities_default : PyVal :=
  PyVal.l [PyVal.s "Local sightseeing", PyVal.s "Cultural experiences",
    PyVal.s "Food tasting", PyVal.s "Nature exploration", PyVal.s "Local markets"]

def tools_accommodations_default : PyVal :=
  PyVal.l [PyVal.s "Local hotel", PyVal.s "Budget guesthouse", PyVal.s "Boutique hostel"]

def tools_transportation_default : PyVal :=
  PyVal.l [PyVal.s "Public transport", PyVal.s "Walking tours"]

def tools_local_tips_default : PyVal :=
  PyVal.l [PyVal.s "Research local customs", PyVal.s "Learn basic phrases",
    PyVal.s "Follow local guidelines"]

/-- One dict through `_validate_suggestions`: defaults only where the key is
absent, then `[:cap]` truncation. -/
def validate_one_suggestion (sug : List (String × PyVal)) : Except String ToolSuggestion :=
  let dstr := pyStr (pyGetD sug "duration" (PyVal.s "5"))
  let digits := dstr.data.filter Char.isDigit
  let duration_val := if digits.isEmpty then 5 else digitsToNat digits
  match pySliceVal (pyGetD sug "activities" tools_activities_default) 5 with
  | Except.error e => Except.error e
  | Except.ok acts =>
    match pySliceVal (pyGetD sug "accommodation_suggestions" tools_accommodations_default) 3 with
    | Except.error e => Except.error e
    | Except.ok accs =>
      match pySliceVal (pyGetD sug "transportation" tools_transportation_default) 2 with
      | Except.error e => Except.error e
      | Except.ok tr =>
        match pySliceVal (pyGetD sug "local_tips" tools_local_tips_default) 3 with
        | Except.error e => Except.error e
        | Except.ok tips =>
          Except.ok
            { destination := pyGetD sug "destination" (PyVal.s "Unknown Location"),
              description := pyGetD sug "description"
                (PyVal.s "A great destination matching your preferences."),
              best_time_to_visit := pyGetD sug "best_time_to_visit" (PyVal.s "Year-round"),
              estimated_budget := pyGetD sug "estimated_budget"
                (PyVal.s "Varies based on preferences"),
              duration := toString duration_val,
              activities := acts,
              accommodation_suggestions := accs,
              transportation := tr,
              local_tips := tips,
              weather_info := pyGetD sug "weather_info"
                (PyVal.s "Check local weather before booking"),
              safety_info := pyGetD sug "safety_info"
                (PyVal.s "Follow standard travel precautions") }

/-- The default suggestion appended by the `while len(validated_data) < 2`
loop (`n` is `len(validated_data) + 1` at append time). -/
def alternative_suggestion (n : Nat) : ToolSuggestion :=
  { destination := PyVal.s ("Alternative Destination " ++ toString n),
    description := PyVal.s "A great destination matching your preferences.",
    best_time_to_visit := PyVal.s "Year-round",
    estimated_budget := PyVal.s "Within your specified budget",
    duration := "5",
    activities := tools_activities_default,
    accommodation_suggestions := tools_accommodations_default,
    transportation := tools_transportation_default,
    local_tips := tools_local_tips_default,
    weather_info := PyVal.s "Check local weather before booking",
    safety_info := PyVal.s "Follow standard travel precautions" }

/-- The per-element loop of `_validate_suggestions`: non-dict entries are
skipped, the first raise propagates. -/
def validate_each : List PyVal → Except String (List ToolSuggestion)
  | [] => Except.ok []
  | sug :: rest =>
    match sug with
    | PyVal.d kvs =>
      match validate_one_suggestion kvs with
      | Except.error e => Except.error e
      | Except.ok v =>
        match validate_each rest with
        | Except.error e => Except.error e
        | Except.ok vs => Except.ok (v :: vs)
    | _ => validate_each rest

def pad_to_two (vs : List ToolSuggestion) : List ToolSuggestion :=
  match vs with
  | [] => [alternative_suggestion 1, alternative_suggestion 2]
  | [v] => [v, alternative_suggestion 2]
  | vs => vs

/-- ItineraryPlannerTool._validate_suggestions: validate each dict, pad to 2,
return exactly the first 2. -/
def validate_suggestions (suggestions : List PyVal) : Except String (List ToolSuggestion) :=
  match validate_each suggestions with
  | Except.error e => Except.error e
  | Except.ok vs => Except.ok ((pad_to_two vs).take 2)

/-- Python `len()` on the shapes the sliced fields can take (strings and
lists; `len()` on numbers raises and is unreachable there). -/
def pyLen : PyVal → Nat
  | PyVal.s x => x.data.length
  | PyVal.l xs => xs.length
  | PyVal.d kvs => kvs.length
  | _ => 0

/-! Regular expressions — `app.py` extracts slots with `re.search`,
`re.findall` and `re.sub`.  A small backtracking matcher interprets the
patterns: greedy/lazy repetition with the leftmost-match search and the
empty-iteration progress guard of Python's `re`, and numbered group capture.
`fuel` bounds the recursion depth of one match attempt (the embedded
patterns on the inputs evaluated here stay far below it). -/

inductive RE where
  | eps
  | eos
  | cls (p : Char → Bool)
  | cat (a b : RE)
  | alt (a b : RE)
  | star (greedy : Bool) (a : RE)
  | opt (greedy : Bool) (a : RE)
  | group (idx : Nat) (a : RE)

/-- Backtracking matcher in continuation style; captures are an association
list from group index to captured characters, most recent first. -/
def reM : Nat → RE → List Char → List (Nat × List Char) →
    (List Char → List (Nat × List Char) → Option (List (Nat × List Char))) →
    Option (List (Nat × List Char))
  | 0, _, _, _, _ => none
  | fuel + 1, re, s, caps, k =>
    match re with
    | RE.eps => k s caps
    | RE.eos => match s with | [] => k s caps | _ => none
    | RE.cls p =>
      match s with
      | [] => none
      | c :: rest => if p c then k rest caps else none
    | RE.cat a b => reM fuel a s caps (fun s2 caps2 => reM fuel b s2 caps2 k)
    | RE.alt a b =>
      match reM fuel a s caps k with
      | some r => some r
      | none => reM fuel b s caps k
    | RE.star greedy a =>
      if greedy then
        match reM fuel a s caps (fun s2 caps2 =>
            if s2.length < s.length then reM fuel (RE.star greedy a) s2 caps2 k
            else none) with
        | some r => some r
        | none => k s caps
      else
        match k s caps with
        | some r => some r
        | none =>
          reM fuel a s caps (fun s2 caps2 =>
            if s2.length < s.length then reM fuel (RE.star greedy a) s2 caps2 k
            else none)
    | RE.opt greedy a =>
      if greedy then
        match reM fuel a s caps k with
        | some r => some r
        | none => k s caps
      else
        match k s caps with
        | some r => some r
        | none => reM fuel a s caps k
    | RE.group idx a =>
      reM fuel a s caps (fun s2 caps2 =>
        k s2 ((idx, s.take (s.length - s2.length)) :: caps2))

def reFuel : Nat := 1000

def reSearchAt (re : RE) (s : List Char) : Option (List (Nat × List Char)) :=
  reM reFuel re s [] (fun _ caps => some caps)

/-- `re.search`: try each start position left to right. -/
def reSearch (re : RE) : List Char → Option (List (Nat × List Char))
  | [] => reSearchAt re []
  | c :: rest =>
    match reSearchAt re (c :: rest) with
    | some caps => some caps
    | none => reSearch re rest

def getGroup (caps : List (Nat × List Char)) (idx : Nat) : List Char :=
  ((caps.find? (fun p => p.1 == idx)).map (fun p => p.2)).getD []

/-- Case-insensitive literal (the extraction searches use `re.IGNORECASE`). -/
def REc (c : Char) : RE := RE.cls (fun x => x.toLower == c.toLower)

def REstr (s : String) : RE := s.data.foldr (fun c acc => RE.cat (REc c) acc) RE.eps

def reSeq (l : List RE) : RE := l.foldr RE.cat RE.eps

def rePlus (g : Bool) (a : RE) : RE := RE.cat a (RE.star g a)

def clsSpace : RE := RE.cls isPySpace
def clsNotCommaNl : RE := RE.cls (fun c => !(c == ',') && !(c == '\n'))
def clsAlpha : RE := RE.cls Char.isAlpha
def clsAlphaSpComma : RE := RE.cls (fun c => c.isAlpha || isPySpace c || c == ',')
def clsWord : RE := RE.cls (fun c => c.isAlphanum || c == '_')
def clsDigit : RE := RE.cls Char.isDigit
def clsDot : RE := RE.cls (fun c => !(c == '\n'))

/-! Origin/destination extraction — `app.py`, `extract_origin_destination`. -/

/-- The `([^,\n]+(?:,\s*[^,\n]+)*)` group of the first from/to pattern. -/
def cityCommaChunk : RE :=
  reSeq [rePlus true clsNotCommaNl,
    RE.star true (reSeq [REc ',', RE.star true clsSpace, rePlus true clsNotCommaNl])]

/-- Pattern `from\s+(...)\s+(?:\([A-Z]{3}\)\s+)?to\s+(...)` (IGNORECASE, so
`[A-Z]` also matches lowercase). -/
def fromToPattern1 : RE :=
  reSeq [REstr "from", rePlus true clsSpace, RE.group 1 cityCommaChunk,
    rePlus true clsSpace,
    RE.opt true (reSeq [REc '(', clsAlpha, clsAlpha, clsAlpha, REc ')', rePlus true clsSpace]),
    REstr "to", rePlus true clsSpace, RE.group 2 cityCommaChunk]

/-- Pattern `from\s+([a-zA-Z\s,]+)\s+to\s+([a-zA-Z\s,]+)`. -/
def fromToPattern2 : RE :=
  reSeq [REstr "from", rePlus true clsSpace, RE.group 1 (rePlus true clsAlphaSpComma),
    rePlus true clsSpace, REstr "to", rePlus true clsSpace,
    RE.group 2 (rePlus true clsAlphaSpComma)]

/-- Pattern `flight.*from\s+([a-zA-Z\s,]+)\s+to\s+([a-zA-Z\s,]+)`. -/
def fromToPattern3 : RE :=
  reSeq [REstr "flight", RE.star true clsDot,
    REstr "from", rePlus true clsSpace, RE.group 1 (rePlus true clsAlphaSpComma),
    rePlus true clsSpace, REstr "to", rePlus true clsSpace,
    RE.group 2 (rePlus true clsAlphaSpComma)]

def from_to_patterns : List RE := [fromToPattern1, fromToPattern2, fromToPattern3]

/-- The IATA-to-city dict of `extract_origin_destination`. -/
def iata_to_city : List (String × String) :=
  [("dmm", "Dammam"), ("szx", "Shenzhen"), ("bom", "Mumbai"), ("del", "Delhi"),
   ("blr", "Bangalore"), ("maa", "Chennai"), ("hyd", "Hyderabad"), ("ccu", "Kolkata"),
   ("lhr", "London"), ("cdg", "Paris"), ("nrt", "Tokyo"), ("jfk", "New York"),
   ("lga", "New York"), ("ewr", "New York"), ("dxb", "Dubai"), ("sin", "Singapore"),
   ("bkk", "Bangkok"), ("dps", "Bali"), ("sfo", "San Francisco"), ("lax", "Los Angeles"),
   ("ord", "Chicago"), ("syd", "Sydney"), ("mel", "Melbourne"), ("yyz", "Toronto"),
   ("yvr", "Vancouver"), ("pvg", "Shanghai"), ("pek", "Beijing"), ("icn", "Seoul"),
   ("hkg", "Hong Kong"), ("tpe", "Taipei"), ("kul", "Kuala Lumpur")]

/-- The common-cities dict of `extract_origin_destination`, in insertion
order. -/
def common_cities : List (String × String) :=
  [("mumbai", "Mumbai"), ("delhi", "Delhi"), ("bangalore", "Bangalore"),
   ("chennai", "Chennai"), ("hyderabad", "Hyderabad"), ("kolkata", "Kolkata"),
   ("london", "London"), ("paris", "Paris"), ("tokyo", "Tokyo"),
   ("new york", "New York"), ("dubai", "Dubai"), ("singapore", "Singapore"),
   ("bangkok", "Bangkok"), ("bali", "Bali"), ("san francisco", "San Francisco"),
   ("los angeles", "Los Angeles"), ("chicago", "Chicago"), ("sydney", "Sydney"),
   ("melbourne", "Melbourne"), ("toronto", "Toronto"), ("vancouver", "Vancouver"),
   ("dammam", "Dammam"), ("shenzhen", "Shenzhen"), ("shanghai", "Shanghai"),
   ("beijing", "Beijing"), ("seoul", "Seoul"), ("hong kong", "Hong Kong"),
   ("taipei", "Taipei"), ("kuala lumpur", "Kuala Lumpur")]

def isUpperAlpha (c : Char) : Bool := 'A' ≤ c && c ≤ 'Z'

def iataFindallAux : Nat → List Char → List String
  | 0, _ => []
  | _ + 1, [] => []
  | fuel + 1, l =>
    match l with
    | '(' :: a :: b :: c :: ')' :: rest =>
      if isUpperAlpha a && isUpperAlpha b && isUpperAlpha c then
        (⟨[a, b, c]⟩ : String) :: iataFindallAux fuel rest
      else iataFindallAux fuel (a :: b :: c :: ')' :: rest)
    | _ :: rest => iataFindallAux fuel rest
    | [] => []

/-- `re.findall(r'\(([A-Z]{3})\)', text)`: leftmost non-overlapping matches,
advancing one character on failure and past the match on success (each step
consumes at least one character, so `l.length` fuel suffices). -/
def iataFindall (l : List Char) : List String := iataFindallAux l.length l

/-- `iata_to_city.get(code.lower(), code.lower().upper())`. -/
def iataResolve (code : String) : String :=
  let lowered := pyLower code
  (iata_to_city.lookup lowered).getD (pyUpper lowered)

/-- One step of `re.sub(r'\s*\([A-Z]{3}\)', '', text, flags=IGNORECASE)`:
does a match start here (maximal whitespace, then a parenthesized 3-letter
code)?  Returns the rest after the match. -/
def matchSpIata (l : List Char) : Option (List Char) :=
  match l.dropWhile isPySpace with
  | '(' :: a :: b :: c :: ')' :: r =>
    if a.isAlpha && b.isAlpha && c.isAlpha then some r else none
  | _ => none

def subRemoveIataAux : Nat → List Char → List Char
  | 0, l => l
  | _ + 1, [] => []
  | fuel + 1, c :: rest =>
    match matchSpIata (c :: rest) with
    | some rest2 => subRemoveIataAux fuel rest2
    | none => c :: subRemoveIataAux fuel rest

/-- `re.sub(r'\s*\([A-Z]{3}\)', '', text, flags=IGNORECASE)` (each match
consumes at least one character, so `l.length` fuel suffices). -/
def subRemoveIata (l : List Char) : List Char := subRemoveIataAux l.length l

/-- Python `str.rstrip(',')`. -/
def pyRstripComma (s : String) : String :=
  ⟨(s.data.reverse.dropWhile (fun c => c == ',')).reverse⟩

def pyTitleAux : Bool → List Char → List Char
  | _, [] => []
  | prevAlpha, c :: rest =>
    (if c.isAlpha then (if prevAlpha then c.toLower else c.toUpper) else c)
      :: pyTitleAux c.isAlpha rest

/-- Python `str.title()` (ASCII model). -/
def pyTitle (s : String) : String := ⟨pyTitleAux false s.data⟩

def isWordChar (c : Char) : Bool := c.isAlphanum || c == '_'

def wordBoundedAux (key : List Char) : Option Char → List Char → Bool
  | prev, [] =>
    key.isEmpty && (match prev with | none => true | some c => !isWordChar c)
  | prev, c :: rest =>
    ((match prev with | none => true | some p => !isWordChar p)
        && List.isPrefixOf key (c :: rest)
        && (match List.drop key.length (c :: rest) with
            | [] => true
            | d :: _ => !isWordChar d))
      || wordBoundedAux key (some c) rest

/-- `re.search(r'\b' + re.escape(key) + r'\b', s)` as a Bool (no IGNORECASE:
both key and input are already lower-case). -/
def wordBoundedIn (key s : String) : Bool := wordBoundedAux key.data none s.data

/-- Truthiness of the origin/destination variables (None and "" are falsy). -/
def truthyStr : Option String → Bool
  | none => false
  | some s => !(s == "")

/-- The `for city_key, city_name in common_cities.items()` matching loop of
the from/to branch: assign on the first key contained in the text, keeping an
already-truthy value. -/
def cityScan (cur : Option String) (text : String) : Option String :=
  common_cities.foldl
    (fun acc kv =>
      if !truthyStr acc && containsSub kv.1 (pyLower text) then some kv.2 else acc)
    cur

/-- The `for pattern in from_to_patterns` loop: `Sum.inl` is an early
`return origin, destination`, `Sum.inr` falls through with the partially
assigned state. -/
def fromToLoop (input : List Char) :
    List RE → Option String → Option String →
    (Option String × Option String) ⊕ (Option String × Option String)
  | [], origin, dest => Sum.inr (origin, dest)
  | p :: rest, origin, dest =>
    match reSearch p input with
    | none => fromToLoop input rest origin dest
    | some caps =>
      let origin_text := pyRstripComma (pyStrip ⟨getGroup caps 1⟩)
      let destination_text := pyRstripComma (pyStrip ⟨getGroup caps 2⟩)
      let origin_text2 : String := ⟨subRemoveIata origin_text.data⟩
      let destination_text2 : String := ⟨subRemoveIata destination_text.data⟩
      let origin2 := cityScan origin origin_text2
      let dest2 := cityScan dest destination_text2
      let origin3 := if truthyStr origin2 then origin2 else some (pyTitle origin_text2)
      let dest3 := if truthyStr dest2 then dest2 else some (pyTitle destination_text2)
      if truthyStr origin3 && truthyStr dest3 then Sum.inl (origin3, dest3)
      else fromToLoop input rest origin3 dest3

/-- Steps 3 and 4 of `extract_origin_destination` (detected-cities context
and the preferred-departure-city fallbacks). -/
def detectedCitiesStep (origin0 dest0 : Option String) (detected : List String)
    (preferred : String) : Option String × Option String :=
  let step4 : Option String → Option String → Option String × Option String :=
    fun origin dest =>
      let origin1 := if !(preferred == "") && !truthyStr dest then some preferred else origin
      let dest1 :=
        match detected with
        | [] => dest
        | d :: _ => if truthyStr origin1 && !truthyStr dest then some d else dest
      (origin1, dest1)
  match detected with
  | [city] =>
    if !(preferred == "") then (some preferred, some city)
    else step4 origin0 (some city)
  | c1 :: c2 :: _ =>
    if !(preferred == "") && detected.contains preferred then
      match detected.filter (fun c => !(c == preferred)) with
      | r :: _ => (some preferred, some r)
      | [] => step4 (some preferred) dest0
    else (some c1, some c2)
  | [] => step4 origin0 dest0

/-- app.py `extract_origin_destination(user_input, preferred_departure_city)`:
parenthesized IATA codes take priority, then the from/to regex cascade, then
detected city names with the preferred-origin heuristics. -/
def extract_origin_destination (user_input preferred : String) :
    Option String × Option String :=
  let input_lower := pyLower user_input
  match iataFindall (pyUpper user_input).data with
  | c1 :: c2 :: _ => (some (iataResolve c1), some (iataResolve c2))
  | _ =>
    match fromToLoop input_lower.data from_to_patterns none none with
    | Sum.inl result => result
    | Sum.inr st =>
      let detected :=
        (common_cities.filter (fun kv => wordBoundedIn kv.1 input_lower)).map
          (fun kv => kv.2)
      detectedCitiesStep st.1 st.2 detected preferred

/-! Intent classification — `app.py`, `detect_request_type`. -/

def comprehensive_keywords : List String :=
  ["curate", "experience", "activities", "places to visit", "things to do",
   "romantic experience", "island escape", "day by day", "itinerary",
   "recommend resorts", "recommend hotels", "attractions", "sightseeing",
   "what to do", "where to go", "travel guide", "complete details",
   "day-by-day", "personalized tips", "unforgettable", "honeymoon"]

def pure_flight_keywords : List String :=
  ["search flights only", "find flights only", "flight prices only",
   "compare flights", "cheapest flights", "flight deals only"]

def itinerary_keywords : List String :=
  ["create itinerary", "make itinerary", "detailed itinerary", "travel plan",
   "schedule", "day 1", "day 2", "day 3", "morning", "afternoon", "evening"]

def flight_words : List String := ["flight", "flights", "round-trip", "round trip"]

def travel_content_words : List String :=
  ["recommend", "suggest", "experience", "activities", "places", "resort", "hotel"]

/-- app.py `detect_request_type`: the priority cascade over keyword sets. -/
def detect_request_type (user_input : String) : String :=
  let input_lower := pyLower user_input
  let comprehensive_count :=
    (comprehensive_keywords.filter (fun kw => containsSub kw input_lower)).length
  if 2 ≤ comprehensive_count then "suggestions"
  else if pure_flight_keywords.any (fun kw => containsSub kw input_lower) then "flights"
  else if itinerary_keywords.any (fun kw => containsSub kw input_lower) then "itinerary"
  else
    let has_flight_words := flight_words.any (fun w => containsSub w input_lower)
    let has_travel_content := travel_content_words.any (fun w => containsSub w input_lower)
    if has_flight_words && has_travel_content then "suggestions"
    else if has_flight_words && !has_travel_content then "flights"
    else "suggestions"

/-! Date extraction — `app.py`, `extract_travel_dates`.  A `none` component
means no pattern matched and the code uses the defaults (departure
`now + 30 days`, return `departure + 7 days`); a `some raw` component is the
captured date text that `parse_date_string` then parses with year-less
month/day formats. -/

/-- The `(\w+ \d{1,2}(?:st|nd|rd|th)?)` capture group of the date patterns. -/
def dateChunk : RE :=
  reSeq [rePlus true clsWord, REc ' ', clsDigit, RE.opt true clsDigit,
    RE.opt true (RE.alt (REstr "st") (RE.alt (REstr "nd")
      (RE.alt (REstr "rd") (REstr "th"))))]

def departurePattern1 : RE :=
  reSeq [REstr "departing on", rePlus true clsSpace,
    RE.group 1 (rePlus false clsNotCommaNl),
    RE.alt (reSeq [rePlus true clsSpace, REstr "and"])
      (reSeq [rePlus true clsSpace, REstr "returning"])]

def departurePattern2 : RE :=
  reSeq [REstr "departure", RE.star false clsDot, RE.group 1 dateChunk]

def departurePattern3 : RE :=
  reSeq [REstr "depart", RE.star false clsDot, RE.group 1 dateChunk]

def departurePattern4 : RE :=
  reSeq [REstr "leaving", RE.star false clsDot, RE.group 1 dateChunk]

def returnPattern1 : RE :=
  reSeq [REstr "returning on", rePlus true clsSpace,
    RE.group 1 (rePlus false clsNotCommaNl),
    RE.alt (reSeq [rePlus true clsSpace, REstr "for"])
      (RE.alt (reSeq [rePlus true clsSpace, REc '.']) RE.eos)]

def returnPattern2 : RE :=
  reSeq [REstr "return", RE.star false clsDot, RE.group 1 dateChunk]

def returnPattern3 : RE :=
  reSeq [REstr "coming back", RE.star false clsDot, RE.group 1 dateChunk]

/-- First matching pattern wins; the captured group is stripped. -/
def extractDateCapture (pats : List RE) (input : List Char) : Option String :=
  match pats with
  | [] => none
  | p :: rest =>
    match reSearch p input with
    | some caps => some (pyStrip ⟨getGroup caps 1⟩)
    | none => extractDateCapture rest input

/-- app.py `extract_travel_dates`: (departure, return) raw captures, `none`
meaning the 30-days-from-now / +7-days defaults. -/
def extract_travel_dates (user_input : String) : Option String × Option String :=
  (extractDateCapture
      [departurePattern1, departurePattern2, departurePattern3, departurePattern4]
      user_input.data,
   extractDateCapture [returnPattern1, returnPattern2, returnPattern3]
      user_input.data)

/-! Theorems for claims C3, C4, C7, C8, C10. -/

/-- C4: for every converter oracle, amount, and pair of currency codes equal up
to case, CurrencyTool.execute returns converted_amount equal to the original
amount and rate exactly 1.0 (the same-currency short-circuit). -/
theorem c4_same_currency_identity (conv : Option (ℚ → String → String → Option ℚ))
    (amount : ℚ) (f t : String) (h : pyUpper f = pyUpper t) :
    (currencyExecute conv amount f t).converted_amount = amount ∧
    (currencyExecute conv amount f t).rate = 1 := by
  simp [currencyExecute, h]

/-- C4 witness: 100 USD to usd converts to 100 at rate 1. -/
theorem c4_same_currency_identity_witness :
    pyUpper "USD" = pyUpper "usd" ∧
    ((currencyExecute none 100 "USD" "usd").converted_amount = 100 ∧
      (currencyExecute none 100 "USD" "usd").rate = 1) :=
  ⟨by decide, c4_same_currency_identity none 100 "USD" "usd" (by decide)⟩

/-- C7 counterexample: for the unmapped name "Casablanca" the SkyID resolver
returns the full upper-cased input "CASABLANCA" (10 characters, not a
truncation to a 3-character code), while the hotel-code resolver truncates to
"CAS"; the two fallbacks disagree, refuting the claim that both fall back to
an uppercase truncation. -/
theorem c7_counterexample_skyid_no_truncation :
    convert_city_to_skyid "Casablanca" = "CASABLANCA" ∧
    convert_city_to_hotel_code "Casablanca" = "CAS" ∧
    flight_convert_to_sky_id "Casablanca" = "CAS" ∧
    ("CASABLANCA" : String).length = 10 := by decide

/-- C7 amended: all three resolvers are pure total lookups (they never raise);
mapped names resolve through their tables, and unmapped names fall back to an
upper-cased form of the input — truncated to 3 characters for the hotel-code
and FlightSearchTool resolvers, but the FULL upper-cased input (no
truncation) for convert_city_to_skyid. -/
theorem c7_city_code_resolution (city : String) :
    (∀ code, skyid_city_mappings.lookup (pyLower city) = some code →
      convert_city_to_skyid city = code) ∧
    (skyid_city_mappings.lookup (pyLower city) = none →
      convert_city_to_skyid city = pyUpper city) ∧
    (∀ code, hotel_city_mappings.lookup (pyLower city) = some code →
      convert_city_to_hotel_code city = code) ∧
    (hotel_city_mappings.lookup (pyLower city) = none →
      convert_city_to_hotel_code city = pyUpper (pyTakeStr 3 city)) ∧
    (∀ code, flight_tool_city_mappings.lookup (pyStrip (pyLower city)) = some code →
      flight_convert_to_sky_id city = code) ∧
    (flight_tool_city_mappings.lookup (pyStrip (pyLower city)) = none →
      flight_convert_to_sky_id city = pyTakeStr 3 (pyUpper city)) := by
  refine ⟨fun code h => ?_, fun h => ?_, fun code h => ?_, fun h => ?_,
    fun code h => ?_, fun h => ?_⟩ <;>
  simp only [convert_city_to_skyid, convert_city_to_hotel_code,
    flight_convert_to_sky_id, h, Option.getD_some, Option.getD_none]

/-- C7 witness: "Mumbai" resolves to BOM via the table, and the unmapped
"Atlantis" falls back to "ATLANTIS" / "ATL" / "ATL" respectively. -/
theorem c7_city_code_resolution_witness :
    (convert_city_to_skyid "Mumbai" = "BOM") ∧
    (convert_city_to_skyid "Atlantis" = pyUpper "Atlantis") ∧
    (convert_city_to_hotel_code "Atlantis" = pyUpper (pyTakeStr 3 "Atlantis")) ∧
    (flight_convert_to_sky_id "Atlantis" = pyTakeStr 3 (pyUpper "Atlantis")) :=
  ⟨(c7_city_code_resolution "Mumbai").1 "BOM" (by decide),
   (c7_city_code_resolution "Atlantis").2.1 (by decide),
   (c7_city_code_resolution "Atlantis").2.2.2.1 (by decide),
   (c7_city_code_resolution "Atlantis").2.2.2.2.2 (by decide)⟩

/-- C3 counterexample: after 12 user/assistant exchanges (24 add_message
calls) get_messages still returns all 24 messages — more than the 20 messages
of 10 exchanges — and the very first message is still present (nothing was
evicted). -/
theorem c3_counterexample_history_unbounded :
    (get_messages sampleConversation).length = 24 ∧
    ¬ (get_messages sampleConversation).length ≤ 20 ∧
    (get_messages sampleConversation).headI = ("user", "0") := by decide

/-- C3 amended: the 10-exchange bound applies to the prompt window assembled
by load_memory_variables — at most 20 messages, always a suffix of the full
history (oldest dropped first) — while get_messages returns the entire
unbounded history: every add_message with a valid role appends and never
evicts. -/
theorem c3_window_bounded_history_unbounded (s : ConversationSession)
    (content : String) (now : Int) :
    (load_memory_window s).length ≤ 20 ∧
    (load_memory_window s).IsSuffix s.messages ∧
    (add_message s "user" content now).messages
      = s.messages ++ [ChatMsg.human content] ∧
    (add_message s "assistant" content now).messages
      = s.messages ++ [ChatMsg.ai content] ∧
    (get_messages s).length = s.messages.length := by
  refine ⟨?_, ?_, ?_, ?_, ?_⟩
  · simp only [load_memory_window, takeLast, List.length_drop]
    omega
  · exact List.drop_suffix _ _
  · simp [add_message]
  · simp [add_message]
  · simp [get_messages]

/-- C10: add_message with any role other than exactly "user" or "assistant"
leaves the stored history unchanged while still refreshing last_activity to
the current time, so the session's expiry clock is reset. -/
theorem c10_invalid_role_discarded_activity_updated (s : ConversationSession)
    (role content : String) (now t : Int)
    (hu : role ≠ "user") (ha : role ≠ "assistant") :
    (add_message s role content now).messages = s.messages ∧
    (add_message s role content now).last_activity = now ∧
    is_expired (add_message s role content now) t = decide (t - now > 24 * 3600) := by
  simp [add_message, is_expired, hu, ha]

/-- C10 witness: a "system" message on a fresh session is discarded but the
activity timestamp moves to 5. -/
theorem c10_invalid_role_discarded_activity_updated_witness :
    ("system" ≠ "user") ∧ ("system" ≠ "assistant") ∧
    ((add_message (newSession 0) "system" "hello" 5).messages
        = (newSession 0).messages ∧
      (add_message (newSession 0) "system" "hello" 5).last_activity = 5 ∧
      is_expired (add_message (newSession 0) "system" "hello" 5) 10
        = decide ((10 : Int) - 5 > 24 * 3600)) :=
  ⟨by decide, by decide,
   c10_invalid_role_discarded_activity_updated (newSession 0) "system" "hello" 5 10
     (by decide) (by decide)⟩

/-- C8 counterexample: deleting an unknown session id returns exactly the same
success payload as deleting an existing one — the delete endpoint surfaces no
distinct "not found" outcome. -/
theorem c8_counterexample_delete_not_distinct :
    (delete_conversation [] "missing").1 = ("success", "Session deleted") ∧
    (delete_conversation [("missing", newSession 0)] "missing").1
      = ("success", "Session deleted") ∧
    (delete_conversation [] "missing").1
      = (delete_conversation [("missing", newSession 0)] "missing").1 := by decide

/-- C8 amended: looking up an unknown session id yields the distinct HTTP 404
"Session not found" outcome (never the 500 internal-error shape), but deleting
an unknown id returns the ordinary success payload with the store unchanged —
delete is idempotent and does not distinguish "not found". -/
theorem c8_lookup_distinct_delete_idempotent
    (store : List (String × ConversationSession)) (sid : String)
    (h : store.lookup sid = none) :
    get_conversation store sid = GetConvOutcome.httpError 404 "Session not found" ∧
    (delete_conversation store sid).1 = ("success", "Session deleted") ∧
    (delete_conversation store sid).2 = store := by
  simp [get_conversation, delete_conversation, h]

/-- C8 witness: instantiated on the empty store and id "ghost". -/
theorem c8_lookup_distinct_delete_idempotent_witness :
    (List.lookup "ghost" ([] : List (String × ConversationSession)) = none) ∧
    (get_conversation [] "ghost" = GetConvOutcome.httpError 404 "Session not found" ∧
      (delete_conversation [] "ghost").1 = ("success", "Session deleted") ∧
      (delete_conversation [] "ghost").2 = []) :=
  ⟨by decide, c8_lookup_distinct_delete_idempotent [] "ghost" (by decide)⟩

/-! Helper lemmas shared by the flight-search theorems. -/

theorem string_cons_ne_empty (c : Char) (cs : List Char) (s : String)
    (h : s.data = c :: cs) : s ≠ "" := by
  intro he
  rw [he] at h
  exact absurd h (by simp)

theorem stops_choice_le_one (n : Nat) : ((([0, 0, 0, 1] : List Nat).get? n).getD 0) ≤ 1 := by
  rcases n with _ | _ | _ | _ | n <;> simp [List.get?]

/-- C2 counterexample: for the RapidAPI FlightSearchTool with an API key and a
provider adapter that raises on every call, the fallback draws each stops
value from [0, 0, 0, 1]; with the all-zeros draw oracle the three returned
flights have stops [0, 0, 0] — not strictly increasing (0, 1, 2). -/
theorem c2_counterexample_rapid_stops_not_increasing :
    ((rapid_execute (some "key") (Except.error "boom") (fun _ => 0) "Mumbai" "Delhi").map
        (fun f => f.stops)) = [0, 0, 0] ∧
    ¬ List.Chain' (fun a b => a < b)
      ((rapid_execute (some "key") (Except.error "boom") (fun _ => 0) "Mumbai" "Delhi").map
        (fun f => f.stops)) ∧
    (rapid_execute (some "key") (Except.error "boom") (fun _ => 0) "Mumbai" "Delhi").length
      = 3 := by
  have hmap : ((rapid_execute (some "key") (Except.error "boom") (fun _ => 0) "Mumbai"
      "Delhi").map (fun f => f.stops)) = [0, 0, 0] := by rfl
  refine ⟨hmap, ?_, by rfl⟩
  rw [hmap]
  intro h
  exact absurd (List.chain'_cons.mp h).1 (by decide)

/-- C2 amended: neither FlightSearchTool implementation returns 3 flights
with strictly increasing stops (0, 1, 2). The travel_tools FlightSearchTool
(the one the app imports) crashes in its own fallback: the third iteration
calls date.replace(minute = 30 + 2 * 15 = 60), which raises
ValueError: minute must be in 0..59, and execute's except handler calls the
same raising fallback again, so the error propagates to the caller for every
input. The RapidAPI FlightSearchTool.py variant does return exactly 3
flights with non-empty prices, but its stops are random draws from
0, 0, 0, 1 — each at most 1, so never the strictly increasing (0, 1, 2). -/
theorem c2_fallback_flights (use_amadeus : Bool) (origin destination : String)
    (date : PyDateTime) (rd : Option PyDateTime) (key : Option String) (e : String)
    (o : Nat → Nat) :
    tt_get_fallback_flights origin destination date rd
      = Except.error "ValueError: minute must be in 0..59" ∧
    tt_execute use_amadeus AmadeusOutcome.raises origin destination date rd
      = Except.error "ValueError: minute must be in 0..59" ∧
    rapid_execute key (Except.error e) o origin destination
      = rapid_fallback_flights o origin destination ∧
    (rapid_fallback_flights o origin destination).length = 3 ∧
    (∀ f ∈ rapid_fallback_flights o origin destination, f.stops ≤ 1 ∧ f.price ≠ "") := by
  refine ⟨by cases rd <;> rfl, by cases use_amadeus <;> cases rd <;> rfl,
    by cases key <;> rfl, by rfl, ?_⟩
  intro f hf
  simp only [rapid_fallback_flights, List.mem_cons, List.not_mem_nil, or_false] at hf
  have hstops : ∀ (dom : Bool) (bp j : Nat) (st : Nat × String × String),
      (rapidIter o origin destination dom bp j st).1.stops ≤ 1 := by
    intro dom bp j st
    exact stops_choice_le_one _
  have hprice : ∀ (dom : Bool) (bp j : Nat) (st : Nat × String × String),
      (rapidIter o origin destination dom bp j st).1.price ≠ "" := by
    intro dom bp j st
    cases dom
    · exact string_cons_ne_empty '$' _ _ rfl
    · exact string_cons_ne_empty '₹' _ _ rfl
  rcases hf with hf | hf | hf <;> subst hf <;> exact ⟨hstops _ _ _ _, hprice _ _ _ _⟩

/-- C9: evaluating _calculate_total_cost at the repository's own fallback
data: the hotel fallback with price "$200 per night" makes float() raise
ValueError (only the characters $ and , are removed), while purely numeric
price texts such as "$1,200.50" and the integer 800 do sum correctly. -/
theorem c9_total_cost_raises_on_fallback_hotel :
    calculate_total_cost [] [fallback_hotel "Goa"] []
      = Except.error "ValueError: could not convert string to float" ∧
    calculate_total_cost [fallback_flight "Mumbai" "Delhi" ⟨2025, 7, 15, 0, 0, 0⟩]
        [[("price", PyVal.s "$1,200.50")]] []
      = Except.ok (mkRat 4001 2) := by
  constructor
  · rfl
  · have h : calculate_total_cost [fallback_flight "Mumbai" "Delhi" ⟨2025, 7, 15, 0, 0, 0⟩]
          [[("price", PyVal.s "$1,200.50")]] []
        = Except.ok (Rat.add (Rat.add (Rat.add (mkRat 800 1) (mkRat 0 1))
            (Rat.add (mkRat 2401 2) (mkRat 0 1))) (mkRat 0 1)) := rfl
    rw [h]
    have hq : Rat.add (Rat.add (Rat.add (mkRat 800 1) (mkRat 0 1))
        (Rat.add (mkRat 2401 2) (mkRat 0 1))) (mkRat 0 1) = mkRat 4001 2 := by
      show ((mkRat 800 1 + mkRat 0 1) + (mkRat 2401 2 + mkRat 0 1)) + mkRat 0 1
        = mkRat 4001 2
      simp only [Rat.mkRat_eq_divInt, Rat.divInt_eq_div]
      norm_num
    rw [hq]

/-! Helper lemmas for the suggestion-validator theorems. -/

theorem toDigitsCore_length_ge (b f : Nat) :
    ∀ (n : Nat) (l : List Char), l.length ≤ (Nat.toDigitsCore b f n l).length := by
  induction f with
  | zero => intro n l; simp [Nat.toDigitsCore]
  | succ f ih =>
    intro n l
    simp only [Nat.toDigitsCore]
    split
    · simp
    · exact le_trans (by simp) (ih (n / b) (Nat.digitChar (n % b) :: l))

theorem toDigits_ne_nil (b n : Nat) : Nat.toDigits b n ≠ [] := by
  simp only [Nat.toDigits, Nat.toDigitsCore]
  split
  · simp
  · intro h
    have hlen := toDigitsCore_length_ge b n (n / b) [Nat.digitChar (n % b)]
    rw [h] at hlen
    simp at hlen

theorem natToString_ne_empty (n : Nat) : toString n ≠ "" := by
  intro h
  exact toDigits_ne_nil 10 n (congrArg String.data h)

theorem capOrDefault_length (cap : Nat) (dflt xs : List PyVal) (hd : dflt.length ≤ cap) :
    (capOrDefault cap dflt xs).length ≤ cap := by
  unfold capOrDefault
  split
  · exact hd
  · simp only [List.length_take]
    omega

theorem capOrDefault_ne_nil (cap : Nat) (dflt xs : List PyVal) (hd : dflt ≠ []) :
    capOrDefault cap dflt xs ≠ [] := by
  unfold capOrDefault
  split
  · exact hd
  · next hne => simp at hne ⊢; exact hne

theorem sliceStep_ok (cap : Nat) (dflt : List PyVal) (e : Except String PyVal)
    (xs : List PyVal) (hd1 : dflt.length ≤ cap) (hd2 : dflt ≠ [])
    (h : sliceStep cap dflt e = Except.ok xs) :
    xs.length ≤ cap ∧ xs ≠ [] := by
  unfold sliceStep at h
  split at h <;> cases h
  exact ⟨capOrDefault_length _ _ _ hd1, capOrDefault_ne_nil _ _ _ hd2⟩

theorem pySliceVal_ok (v : PyVal) (n : Nat) (w : PyVal) (h : pySliceVal v n = Except.ok w) :
    pyLen w ≤ n := by
  unfold pySliceVal at h
  split at h <;> cases h <;> simp [pyLen, List.length_take]

theorem validate_one_ok (kvs : List (String × PyVal)) (v : ToolSuggestion)
    (h : validate_one_suggestion kvs = Except.ok v) :
    pyLen v.activities ≤ 5 ∧ pyLen v.accommodation_suggestions ≤ 3 ∧
    pyLen v.transportation ≤ 2 ∧ pyLen v.local_tips ≤ 3 ∧ v.duration ≠ "" := by
  simp only [validate_one_suggestion] at h
  split at h
  next e => cases h
  next acts hA =>
  split at h
  next e => cases h
  next accs hB =>
  split at h
  next e => cases h
  next tr hC =>
  split at h
  next e => cases h
  next tips hD =>
  cases h
  exact ⟨pySliceVal_ok _ _ _ hA, pySliceVal_ok _ _ _ hB, pySliceVal_ok _ _ _ hC,
    pySliceVal_ok _ _ _ hD, natToString_ne_empty _⟩

theorem validate_each_ok (P : ToolSuggestion → Prop)
    (hP : ∀ kvs v, validate_one_suggestion kvs = Except.ok v → P v) :
    ∀ raws vs, validate_each raws = Except.ok vs → ∀ s ∈ vs, P s := by
  intro raws
  induction raws with
  | nil =>
    intro vs h s hs
    cases h
    simp at hs
  | cons sug rest ih =>
    intro vs h s hs
    unfold validate_each at h
    split at h
    · next kvs =>
      split at h
      next e => cases h
      next v hv =>
      split at h
      next e => cases h
      next vs2 hrest =>
      cases h
      rcases List.mem_cons.mp hs with rfl | hs2
      · exact hP _ _ hv
      · exact ih _ hrest _ hs2
    all_goals exact ih _ h _ hs

theorem mem_pad_to_two (vs : List ToolSuggestion) (s : ToolSuggestion)
    (h : s ∈ pad_to_two vs) :
    s ∈ vs ∨ s = alternative_suggestion 1 ∨ s = alternative_suggestion 2 := by
  match vs with
  | [] => simp [pad_to_two] at h; tauto
  | [v] =>
    simp only [pad_to_two, List.mem_cons, List.not_mem_nil, or_false] at h
    rcases h with rfl | rfl
    · exact Or.inl (by simp)
    · exact Or.inr (Or.inr rfl)
  | v :: w :: t => exact Or.inl h

theorem pad_to_two_length (vs : List ToolSuggestion) : 2 ≤ (pad_to_two vs).length := by
  match vs with
  | [] => simp [pad_to_two]
  | [v] => simp [pad_to_two]
  | v :: w :: t => simp [pad_to_two]

/-- C1 counterexample: the validators do not guarantee non-emptiness.  On the
empty raw dict the agent validator returns a suggestion whose description is
the EMPTY string, and the tools validator passes an explicitly supplied empty
destination string and empty activities list straight through (defaults are
substituted only when a key is absent). -/
theorem c1_counterexample_empty_fields_survive :
    (validate_suggestion_data [] 5).map (fun s => s.description) = Except.ok (PyVal.s "") ∧
    (validate_suggestions [PyVal.d [("destination", PyVal.s ""), ("activities", PyVal.l [])]]).map
        (fun l => l.map (fun s => (s.destination, s.activities)))
      = Except.ok [(PyVal.s "", PyVal.l []),
          (PyVal.s "Alternative Destination 2", tools_activities_default)] :=
  ⟨rfl, rfl⟩

/-- C1 amended: for every raw suggestion dict and positive caller duration,
whatever suggestion the validators return satisfies the length caps
(activities ≤ 5, accommodation_suggestions ≤ 3, transportation ≤ 2,
local_tips ≤ 3), with a non-empty duration; in the agent validator the four
list fields are additionally never empty, and the tools validator returns
exactly 2 suggestions.  Non-emptiness of the remaining fields holds only for
absent keys (defaults), not for explicitly supplied empty values, and
description defaults to the empty string. -/
theorem c1_validator_caps_and_padding (data : List (String × PyVal)) (duration : Nat)
    (raws : List PyVal) (_hpos : 0 < duration) :
    (∀ s, validate_suggestion_data data duration = Except.ok s →
      s.activities.length ≤ 5 ∧ s.activities ≠ [] ∧
      s.accommodation_suggestions.length ≤ 3 ∧ s.accommodation_suggestions ≠ [] ∧
      s.transportation.length ≤ 2 ∧ s.transportation ≠ [] ∧
      s.local_tips.length ≤ 3 ∧ s.local_tips ≠ [] ∧
      s.duration ≠ "") ∧
    (∀ out, validate_suggestions raws = Except.ok out →
      out.length = 2 ∧
      ∀ s ∈ out, pyLen s.activities ≤ 5 ∧ pyLen s.accommodation_suggestions ≤ 3 ∧
        pyLen s.transportation ≤ 2 ∧ pyLen s.local_tips ≤ 3 ∧ s.duration ≠ "") := by
  constructor
  · intro s h
    unfold validate_suggestion_data at h
    split at h
    next e => cases h
    next acts hA =>
    split at h
    next e => cases h
    next accs hB =>
    split at h
    next e => cases h
    next tr hC =>
    split at h
    next e => cases h
    next tips hD =>
    cases h
    exact ⟨(sliceStep_ok 5 _ _ _ (by decide) (by simp [agent_activities_default]) hA).1,
      (sliceStep_ok 5 _ _ _ (by decide) (by simp [agent_activities_default]) hA).2,
      (sliceStep_ok 3 _ _ _ (by decide) (by simp [agent_accommodations_default]) hB).1,
      (sliceStep_ok 3 _ _ _ (by decide) (by simp [agent_accommodations_default]) hB).2,
      (sliceStep_ok 2 _ _ _ (by decide) (by simp [agent_transportation_default]) hC).1,
      (sliceStep_ok 2 _ _ _ (by decide) (by simp [agent_transportation_default]) hC).2,
      (sliceStep_ok 3 _ _ _ (by decide) (by simp [agent_local_tips_default]) hD).1,
      (sliceStep_ok 3 _ _ _ (by decide) (by simp [agent_local_tips_default]) hD).2,
      natToString_ne_empty _⟩
  · intro out h
    unfold validate_suggestions at h
    split at h
    next e => cases h
    next vs hvs =>
    cases h
    constructor
    · have hlen := pad_to_two_length vs
      simp only [List.length_take]
      omega
    · intro s hs
      have hs2 := List.mem_of_mem_take hs
      rcases mem_pad_to_two _ _ hs2 with hmem | rfl | rfl
      · exact validate_each_ok _ validate_one_ok raws vs hvs s hmem
      · exact ⟨by decide, by decide, by decide, by decide, by decide⟩
      · exact ⟨by decide, by decide, by decide, by decide, by decide⟩

/-- C1 witness: the amended theorem instantiated on the empty raw dict with
duration 5 and an empty raw list. -/
theorem c1_validator_caps_and_padding_witness :
    0 < 5 ∧
    ((∀ s, validate_suggestion_data [] 5 = Except.ok s →
      s.activities.length ≤ 5 ∧ s.activities ≠ [] ∧
      s.accommodation_suggestions.length ≤ 3 ∧ s.accommodation_suggestions ≠ [] ∧
      s.transportation.length ≤ 2 ∧ s.transportation ≠ [] ∧
      s.local_tips.length ≤ 3 ∧ s.local_tips ≠ [] ∧
      s.duration ≠ "") ∧
    (∀ out, validate_suggestions [] = Except.ok out →
      out.length = 2 ∧
      ∀ s ∈ out, pyLen s.activities ≤ 5 ∧ pyLen s.accommodation_suggestions ≤ 3 ∧
        pyLen s.transportation ≤ 2 ∧ pyLen s.local_tips ≤ 3 ∧ s.duration ≠ "")) :=
  ⟨by decide, c1_validator_caps_and_padding [] 5 [] (by decide)⟩

/-- C5 counterexample: on "flights from Mumbai to Delhi on 2025-07-15" none
of the departure or return date patterns matches (they require keywords such
as "departing on", "departure", "depart", "leaving", "returning"), so
extract_travel_dates falls back to the 30-days-from-now default — the
departure slot is NOT the ISO date 2025-07-15 written in the input. -/
theorem c5_counterexample_date_not_extracted :
    extract_travel_dates "flights from Mumbai to Delhi on 2025-07-15"
      = (none, none) := by decide

/-- C5 amended: the intent classifier yields "flights" and slot extraction
yields origin Mumbai and destination Delhi (for every preferred departure
city), but the departure date slot is the default, not 2025-07-15. -/
theorem c5_flights_intent_and_slots :
    detect_request_type "flights from Mumbai to Delhi on 2025-07-15" = "flights" ∧
    (∀ preferred, extract_origin_destination
      "flights from Mumbai to Delhi on 2025-07-15" preferred
      = (some "Mumbai", some "Delhi")) ∧
    extractDateCapture
      [departurePattern1, departurePattern2, departurePattern3, departurePattern4]
      "flights from Mumbai to Delhi on 2025-07-15".data = none :=
  ⟨by decide, fun _ => rfl, by decide⟩

/-- C6: whenever the parenthesized-IATA findall yields at least two codes,
extract_origin_destination resolves the first and second codes through the
static IATA-to-city table (with an uppercase fallback for unmapped codes) and
returns immediately — before any from/to pattern is consulted. -/
theorem c6_iata_priority (user_input preferred : String) (c1 c2 : String)
    (rest : List String)
    (h : iataFindall (pyUpper user_input).data = c1 :: c2 :: rest) :
    extract_origin_destination user_input preferred
      = (some (iataResolve c1), some (iataResolve c2)) := by
  unfold extract_origin_destination
  rw [h]

/-- C6 witness: an input that also contains a "from Mumbai to Delhi" text
pattern still resolves through the IATA codes, to Dammam and Shenzhen. -/
theorem c6_iata_priority_witness :
    iataFindall (pyUpper "Please book flights from Mumbai to Delhi (DMM) (SZX)").data
      = ["DMM", "SZX"] ∧
    extract_origin_destination
        "Please book flights from Mumbai to Delhi (DMM) (SZX)" "Paris"
      = (some (iataResolve "DMM"), some (iataResolve "SZX")) ∧
    iataResolve "DMM" = "Dammam" ∧ iataResolve "SZX" = "Shenzhen" :=
  ⟨by decide,
   c6_iata_priority "Please book flights from Mumbai to Delhi (DMM) (SZX)" "Paris"
     "DMM" "SZX" [] (by decide),
   by decide, by decide⟩
